import Mathlib

/-!
Shallow embedding of `neronet/experiment.py`: the experiment record, its
lifecycle state machine, the condition evaluator (`ExperimentWarning.get_action`),
the action aggregator (`Experiment.get_action`), the output-extraction pipeline
(`Experiment.get_output`) and the plotting pipeline (`Experiment.plotter`).

Python strings that are manipulated character-wise (log lines, `varname`,
`when`) are modelled as `List Char`; strings compared only atomically
(identifiers, actions, comparators, file names, messages) stay `String`.
`datetime` instants are modelled as seconds (`Nat`); Python floats as `Rat`.
A Python value returned by user-supplied processors is a `PyObj`.
An exception that the source does not catch is modelled as `PyErr.uncaught`.
-/

/-- Python `str.strip()` on a character list: drop whitespace at both ends. -/
def trimChars (s : List Char) : List Char :=
  ((s.dropWhile Char.isWhitespace).reverse.dropWhile Char.isWhitespace).reverse

/-- Python `str.strip()` on a `String`. -/
def strip (s : String) : String := ⟨trimChars s.data⟩

/-- Python substring test `needle in hay`. -/
def containsSub : List Char → List Char → Bool
  | [], needle => needle.isEmpty
  | c :: rest, needle => needle.isPrefixOf (c :: rest) || containsSub rest needle

/-- Numeric value of a digit list (most significant first). -/
def digitsVal (ds : List Char) : Nat :=
  ds.foldl (fun a c => a * 10 + (c.toNat - 48)) 0

/-- Python `float(s)` on an already-stripped string, for finite decimal
literals `[+-]? (digits [. digits] | . digits) ([eE] [+-]? digits)?`.
`none` models the `ValueError` that `float` raises on malformed input. -/
def pyFloat (s : List Char) : Option Rat :=
  let p1 := match s with
    | '-' :: rest => (true, rest)
    | '+' :: rest => (false, rest)
    | _ => (false, s)
  let neg := p1.1
  let s1 := p1.2
  let ip := s1.takeWhile Char.isDigit
  let s2 := s1.dropWhile Char.isDigit
  let p2 := match s2 with
    | '.' :: rest => (rest.takeWhile Char.isDigit, rest.dropWhile Char.isDigit)
    | _ => ([], s2)
  let fp := p2.1
  let s3 := p2.2
  if ip.isEmpty && fp.isEmpty then none
  else
    -- the exact rational value of the decimal literal, built with `mkRat`
    let num : Int := ↑(digitsVal ip * 10 ^ fp.length + digitsVal fp)
    let num : Int := if neg then -num else num
    let den : Nat := 10 ^ fp.length
    match s3 with
    | [] => some (mkRat num den)
    | e :: rest =>
      if e == 'e' || e == 'E' then
        let p3 := match rest with
          | '-' :: r => (true, r)
          | '+' :: r => (false, r)
          | _ => (false, rest)
        let eneg := p3.1
        let r1 := p3.2
        let ed := r1.takeWhile Char.isDigit
        let r2 := r1.dropWhile Char.isDigit
        if ed.isEmpty || !r2.isEmpty then none
        else if eneg then some (mkRat num (den * 10 ^ digitsVal ed))
        else some (mkRat (num * 10 ^ digitsVal ed) den)
      else none

/-- A Python value produced or consumed by user-supplied processor functions. -/
inductive PyObj where
  | none
  | str (s : String)
  | num (q : Rat)
  | list (xs : List PyObj)
  | dict (kvs : List (String × PyObj))

/-- Python truthiness of a `PyObj` (`if not data`). -/
def PyObj.truthy : PyObj → Bool
  | .none => false
  | .str s => !s.isEmpty
  | .num q => !(q == 0)
  | .list xs => !xs.isEmpty
  | .dict kvs => !kvs.isEmpty

/-- Outcome of an operation that can raise.  `outputReadError` and
`plotError` are the two exception classes the source defines; `uncaught`
models any other exception escaping (its Python class name recorded). -/
inductive PyErr where
  | outputReadError (msg : String)
  | plotError (msg : String)
  | uncaught (kind : String)
deriving DecidableEq

/-- Lookup in a Python dict modelled as an association list (`d[k]` / `k in d`). -/
def alistFind {α : Type} (l : List (String × α)) (k : String) : Option α :=
  match l with
  | [] => Option.none
  | kv :: rest => if kv.1 == k then some kv.2 else alistFind rest k

/-- `os.path.join` for the simple relative second components the source builds. -/
def pathJoin (a b : String) : String := a ++ "/" ++ b

/-- Characters after the last `/` (accumulator holds the current segment
reversed). -/
def basenameChars : List Char → List Char → List Char
  | [], acc => acc.reverse
  | c :: rest, acc =>
    if c == '/' then basenameChars rest [] else basenameChars rest (c :: acc)

/-- `os.path.basename`: the part after the last slash. -/
def basename (p : String) : String := ⟨basenameChars p.data []⟩

/-- Whitespace-separated tokenisation (accumulator holds the current token
reversed). -/
def splitTokens : List Char → List Char → List String
  | [], acc => if acc.isEmpty then [] else [⟨acc.reverse⟩]
  | c :: rest, acc =>
    if c.isWhitespace then
      if acc.isEmpty then splitTokens rest []
      else ⟨acc.reverse⟩ :: splitTokens rest []
    else splitTokens rest (c :: acc)

/-- `shlex.split` restricted to whitespace-separated tokens (the processor and
plot specs contain no quoting). -/
def shlexSplit (s : String) : List String := splitTokens s.data []

/-- A condition spec (`class ExperimentWarning`). -/
structure ExperimentWarning where
  name : String
  varname : List Char
  killvalue : Rat
  comparator : String
  condWhen : List Char
  action : String
  start_time : Nat
deriving DecidableEq

/-- `ExperimentWarning.__init__`: every textual field is stripped and
`start_time` is the construction instant. -/
def ExperimentWarning.make (name : String) (variablename : List Char) (killvalue : Rat)
    (comparator : String) (wh : List Char) (action : String) (now : Nat) :
    ExperimentWarning :=
  { name := strip name
    varname := trimChars variablename
    killvalue := killvalue
    comparator := strip comparator
    condWhen := trimChars wh
    action := strip action
    start_time := now }

/-- Source lines 417-421: the five-way comparator disjunction. -/
def comparatorFires (comparator : String) (varvalue killvalue : Rat) : Bool :=
  (comparator == "gt" && decide (killvalue < varvalue)) ||
  (comparator == "lt" && decide (varvalue < killvalue)) ||
  (comparator == "eq" && decide (varvalue = killvalue)) ||
  (comparator == "geq" && decide (killvalue ≤ varvalue)) ||
  (comparator == "leq" && decide (varvalue ≤ killvalue))

/-- Source lines 411-423: the varname-prefix test, float parse and comparison
(the part of `ExperimentWarning.get_action` guarded by `check_condition`).
`logrow` is already stripped here. -/
def checkBody (c : ExperimentWarning) (logrow : List Char) : String :=
  let varlen := c.varname.length
  if trimChars (logrow.take varlen) == c.varname then
    match pyFloat (trimChars (logrow.drop varlen)) with
    | Option.none => "no action"
    | some varvalue =>
      if comparatorFires c.comparator varvalue c.killvalue then c.action
      else "no action"
  else "no action"

/-- `ExperimentWarning.get_action` (source lines 400-423).  The result is
`some action_string`; `none` models the uncaught `ValueError` raised by
`float(self.when[4:].strip())` when the time-gate value is malformed.
`now` is the current wall-clock instant in seconds. -/
def ExperimentWarning.get_action (c : ExperimentWarning) (logrow : List Char) (now : Nat) :
    Option String :=
  let logrow := trimChars logrow
  if containsSub c.condWhen (String.toList "time") then
    match pyFloat (trimChars (c.condWhen.drop 4)) with
    | Option.none => Option.none
    | some time_when =>
      -- time_passed_min is Python-2 integer division of elapsed seconds
      let time_passed_min : Nat := (now - c.start_time) / 60
      if (time_passed_min : Rat) < time_when then some "no action"
      else some (checkBody c logrow)
  else some (checkBody c logrow)

/-- The experiment record: the `_fields` dict plus `_experiment_id`.
`conditions` and the processor/plot maps keep `None` (`Option.none`) distinct
from the empty dict; association lists fix the dict iteration order. -/
structure Experiment where
  experiment_id : String
  run_command_prefix : String
  main_code_file : String
  required_files : List String
  outputs : Option (List String)
  output_file_processor : Option (List (String × String))
  output_line_processor : Option (List (String × String))
  plot : Option (List (String × String))
  parameters : Option (List (String × String))
  parameters_format : String
  collection : List String
  conditions : Option (List (String × ExperimentWarning))
  sbatch_args : Option (List String)
  path : String
  time_created : Nat
  time_modified : Nat
  run_results : List String
  states_info : List (String × Nat)
  cluster_id : Option String
  warnings : List String
  custom_msg : String

/-- `Experiment.__init__` (source lines 61-92).  The `x if x else d` defaults
use Python truthiness, so an empty list/string argument is replaced too. -/
def Experiment.init (experiment_id run_command_prefix main_code_file path : String)
    (parameters : Option (List (String × String))) (parameters_format : String)
    (required_files : Option (List String)) (outputs : Option (List String))
    (output_line_processor output_file_processor : Option (List (String × String)))
    (collection : Option (List String)) (custom_msg : Option String)
    (plot : Option (List (String × String)))
    (conditions : Option (List (String × ExperimentWarning)))
    (sbatch_args : Option (List String)) (now : Nat) : Experiment :=
  { experiment_id := experiment_id
    run_command_prefix := run_command_prefix
    main_code_file := main_code_file
    required_files := match required_files with
      | some fs => if fs.isEmpty then [] else fs
      | Option.none => []
    outputs := outputs
    output_file_processor := output_file_processor
    output_line_processor := output_line_processor
    plot := plot
    parameters := parameters
    parameters_format := parameters_format
    collection := match collection with
      | some cs => if cs.isEmpty then [basename path] else cs
      | Option.none => [basename path]
    conditions := conditions
    sbatch_args := sbatch_args
    path := path
    time_created := now
    time_modified := now
    run_results := []
    states_info := [("defined", now)]
    cluster_id := Option.none
    warnings := []
    custom_msg := match custom_msg with
      | some m => if m.isEmpty then "" else m
      | Option.none => "" }

/-- Derived view `self.state = states_info[-1][0]` (`states_info` is non-empty
for every record the constructor can build). -/
def Experiment.state (e : Experiment) : String := (e.states_info.getLastD ("", 0)).1

/-- `duplicate_experiment` (source lines 377-384): re-invoke the constructor
with the original's definable (mandatory + optional) field values, the new id,
and — as the source explicitly does — the original's `path`. -/
def duplicate_experiment (e : Experiment) (experiment_id : String) (now : Nat) : Experiment :=
  Experiment.init experiment_id (Experiment.run_command_prefix e) e.main_code_file e.path
    e.parameters e.parameters_format (some e.required_files) e.outputs
    e.output_line_processor e.output_file_processor (some e.collection)
    (some e.custom_msg) e.plot e.conditions e.sbatch_args now

/-- Loop body of `Experiment.get_action` (source lines 237-242), iterating the
conditions dict in its (fixed, modelled) order.  `none` models an exception
other than `TypeError` escaping a condition's evaluation. -/
def getActionGo (logrow : List Char) (now : Nat) :
    List (String × ExperimentWarning) → String × String → Option (String × String)
  | [], init_action => some init_action
  | kc :: rest, init_action =>
    match kc.2.get_action logrow now with
    | Option.none => Option.none
    | some action =>
      if action == "kill" then some (action, kc.1)
      else if action == "no action" then getActionGo logrow now rest init_action
      else getActionGo logrow now rest (action, kc.1)

/-- `Experiment.get_action` (source lines 234-245).  When `conditions` is
`None`, iterating raises `TypeError`, which the source catches and answers
with the default. -/
def Experiment.get_action (e : Experiment) (logrow : List Char) (now : Nat) :
    Option (String × String) :=
  match e.conditions with
  | Option.none => some ("no action", "")
  | some conds => getActionGo logrow now conds ("no action", "")

/-- `Experiment.update_state` (source lines 311-318): no-op on the current
state; on a transition into `running` with a truthy conditions dict, every
condition's `start_time` is reset to the current instant; the new state is
appended with its timestamp. -/
def Experiment.update_state (e : Experiment) (state : String) (now : Nat) : Experiment :=
  if state == e.state then e
  else
    let conditionsTruthy := match e.conditions with
      | some cs => !cs.isEmpty
      | Option.none => false
    let e :=
      if state == "running" && conditionsTruthy then
        { e with conditions :=
            e.conditions.map (fun cs => cs.map (fun kc => (kc.1, { kc.2 with start_time := now }))) }
      else e
    { e with states_info := e.states_info ++ [(state, now)] }

/-- The external collaborators of the pipelines: dynamic function resolution
(`neronet.core.import_from`, split by the two call sites' expected signatures)
and the filesystem.  `read_file` yields the lines exactly as Python's file
iteration would (so `f.read()` is their concatenation); `Option.none` models
an unresolvable name, a raising user function, or an unreadable file. -/
structure Env where
  import_from_reader : String → String → Option (String → List String → Option PyObj)
  import_from_plotter : String → String →
    Option (String → PyObj → List (String ⊕ (String × PyObj)) → Option PyObj)
  read_file : String → Option (List String)
  user_data_dir : String

/-- `Experiment.get_results_dir` (source lines 94-100): `none` models the
`IndexError` of `run_results[-1]` on an empty list. -/
def Experiment.get_results_dir (e : Experiment) (user_data_dir : String) : Option String :=
  if e.state == "finished" then e.run_results.getLast?
  else some (pathJoin (pathJoin user_data_dir "results") e.experiment_id)

/-- Line-accumulation dict of line-processor mode: `data[key] = [value]` on
first sight of a key, `data[key].append(value)` afterwards.  In this loop the
dict's values are always Python lists, modelled directly as `List PyObj`. -/
def accumAppend (d : List (String × List PyObj)) (k : String) (v : PyObj) :
    List (String × List PyObj) :=
  match d with
  | [] => [(k, [v])]
  | (k1, xs) :: rest =>
    if k1 == k then (k1, xs ++ [v]) :: rest else (k1, xs) :: accumAppend rest k v

/-- The `for line in f` loop of line-processor mode (source lines 150-165).
The source's `isinstance(data, dict)` check inspects the accumulator `data`
(always a dict here), not `line_data`; so when a line's result is not a dict
the subsequent `line_data.iteritems()` raises an uncaught `AttributeError`. -/
def lineLoop (reader : String → List String → Option PyObj) (reader_args : List String)
    (eid filename reader_name : String) :
    List String → List (String × List PyObj) → Except PyErr (List (String × List PyObj))
  | [], acc => .ok acc
  | line :: rest, acc =>
    match reader line reader_args with
    | Option.none =>
      .error (.outputReadError (eid ++ ": couldn't read " ++ filename ++ " with " ++ reader_name))
    | some line_data =>
      match line_data with
      | .dict kvs =>
        lineLoop reader reader_args eid filename reader_name rest
          (kvs.foldl (fun a kv => accumAppend a kv.1 kv.2) acc)
      | _ => .error (.uncaught "AttributeError")

/-- The `for processor_type in [...]` loop of `Experiment.get_output`
(source lines 114-165).  `data` is threaded through both iterations; note the
loop has no `break`, so a line processor registered for the same filename runs
after — and its result replaces — the file processor's. -/
def processLoop (e : Experiment) (env : Env) (filename : String) :
    List String → Option PyObj → Except PyErr (Option PyObj)
  | [], data => .ok data
  | ptype :: rest, data =>
    let specs := if ptype == "output_file_processor" then e.output_file_processor
                 else e.output_line_processor
    match specs with
    | Option.none => processLoop e env filename rest data
    | some m =>
      if m.isEmpty then processLoop e env filename rest data
      else match alistFind m filename with
      | Option.none => processLoop e env filename rest data
      | some spec =>
        match shlexSplit spec with
        | [] => .error (.outputReadError (e.experiment_id ++ ": couldn't parse " ++ ptype ++ " arguments"))
        | [_] => .error (.outputReadError (e.experiment_id ++ ": couldn't parse " ++ ptype ++ " arguments"))
        | module_name :: reader_name :: reader_args =>
          match env.import_from_reader module_name reader_name with
          | Option.none =>
            .error (.outputReadError (e.experiment_id ++ ": couldn't import " ++ module_name ++ " from " ++ reader_name))
          | some reader =>
            match e.get_results_dir env.user_data_dir with
            | Option.none => .error (.uncaught "IndexError")
            | some results_dir =>
              match env.read_file (pathJoin results_dir filename) with
              | Option.none => .error (.uncaught "IOError")
              | some lines =>
                if ptype == "output_file_processor" then
                  match reader (String.join lines) reader_args with
                  | Option.none =>
                    .error (.outputReadError (e.experiment_id ++ ": couldn't read " ++ filename ++ " with " ++ reader_name))
                  | some d =>
                    match d with
                    | .dict kvs => processLoop e env filename rest (some (.dict kvs))
                    | _ =>
                      .error (.outputReadError (e.experiment_id ++ ": " ++ ptype ++ " for " ++ filename ++ " didn't return a dict"))
                else
                  match lineLoop reader reader_args e.experiment_id filename reader_name lines [] with
                  | .error err => .error err
                  | .ok acc =>
                    processLoop e env filename rest
                      (some (.dict (acc.map (fun kv => (kv.1, PyObj.list kv.2)))))

/-- `Experiment.get_output` (source lines 102-169).  After both processor
types have been tried, a falsy `data` — still `None`, or an empty dict —
raises the "no output processor defined" `OutputReadError`. -/
def Experiment.get_output (e : Experiment) (env : Env) (filename : String) :
    Except PyErr PyObj :=
  match processLoop e env filename ["output_file_processor", "output_line_processor"] Option.none with
  | .error err => .error err
  | .ok data =>
    match data with
    | some d =>
      if d.truthy then .ok d
      else .error (.outputReadError (e.experiment_id ++ ": no output processor defined for " ++ filename))
    | Option.none =>
      .error (.outputReadError (e.experiment_id ++ ": no output processor defined for " ++ filename))

/-- `plot_arg in output` for the dict `get_output` returns. -/
def pyContainsKey (o : PyObj) (k : String) : Bool :=
  match o with
  | .dict kvs => (alistFind kvs k).isSome
  | _ => false

/-- `output[plot_arg]` (only evaluated under `pyContainsKey`). -/
def pyGetKey (o : PyObj) (k : String) : PyObj :=
  match o with
  | .dict kvs => (alistFind kvs k).getD .none
  | _ => .none

/-- `Experiment.plotter` (source lines 184-232).  The `get_output` call sits
outside every `try`, so its errors pass through unchanged; everything from the
final plotting call (including the `get_results_dir` there) is converted to
`PlotError`.  `feedback` is the opaque object threaded between invocations. -/
def Experiment.plotter (e : Experiment) (env : Env) (plot_name : String) (feedback : PyObj) :
    Except PyErr PyObj :=
  match e.plot with
  | Option.none => .error (.uncaught "TypeError")
  | some plots =>
    match alistFind plots plot_name with
    | Option.none =>
      .error (.plotError (e.experiment_id ++ ": no plot named " ++ plot_name ++ " defined"))
    | some spec =>
      match shlexSplit spec with
      | module_name :: plotter_name :: output_filename :: plot_args =>
        match env.import_from_plotter module_name plotter_name with
        | Option.none =>
          .error (.plotError (e.experiment_id ++ ": couldn't import " ++ plotter_name ++ " from " ++ module_name))
        | some plotfn =>
          match e.get_output env output_filename with
          | .error err => .error err
          | .ok output =>
            let plot_data := plot_args.map (fun a =>
              if pyContainsKey output a then Sum.inr (a, pyGetKey output a) else Sum.inl a)
            match e.get_results_dir env.user_data_dir with
            | Option.none =>
              .error (.plotError (e.experiment_id ++ ": couldn't plot " ++ plot_name ++ ", maybe something is wrong with the plot function?"))
            | some results_dir =>
              match plotfn (pathJoin results_dir plot_name) feedback plot_data with
              | Option.none =>
                .error (.plotError (e.experiment_id ++ ": couldn't plot " ++ plot_name ++ ", maybe something is wrong with the plot function?"))
              | some v => .ok v
      | _ => .error (.plotError (e.experiment_id ++ ": couldn't parse plot arguments"))

/-! ### Helper lemmas about `trimChars` and the varname-prefix test -/

theorem trimChars_sublist (s : List Char) : List.Sublist (trimChars s) s := by
  unfold trimChars
  have h1 : List.Sublist (s.dropWhile Char.isWhitespace) s :=
    (List.dropWhile_suffix Char.isWhitespace).sublist
  have h2 : List.Sublist
      ((s.dropWhile Char.isWhitespace).reverse.dropWhile Char.isWhitespace)
      (s.dropWhile Char.isWhitespace).reverse :=
    (List.dropWhile_suffix Char.isWhitespace).sublist
  have h3 := h2.reverse
  rw [List.reverse_reverse] at h3
  exact h3.trans h1

/-- If the stripped first `varname.length` characters of `l` equal `varname`
then `l` literally starts with `varname`. -/
theorem starts_with_of_prefix_test (varname l : List Char)
    (h : trimChars (l.take varname.length) = varname) :
    l = varname ++ l.drop varname.length := by
  have hlen2 : (l.take varname.length).length ≤ varname.length := by
    simp [List.length_take]
  have hlen3 : varname.length ≤ (trimChars (l.take varname.length)).length := by rw [h]
  have heq : trimChars (l.take varname.length) = l.take varname.length :=
    (trimChars_sublist _).eq_of_length_le (le_trans hlen2 hlen3)
  rw [heq] at h
  conv_lhs => rw [← List.take_append_drop varname.length l]
  rw [h]

/-! ### Aggregator lemmas -/

/-- The non-kill firings of a condition list on one log line, in iteration
order: name and action of every condition whose evaluation returns an action
other than `no action` and `kill`. -/
def nonKillFirings (logrow : List Char) (now : Nat)
    (conds : List (String × ExperimentWarning)) : List (String × String) :=
  conds.filterMap (fun kc =>
    match kc.2.get_action logrow now with
    | some a => if a ≠ "no action" ∧ a ≠ "kill" then some (a, kc.1) else Option.none
    | Option.none => Option.none)

theorem getActionGo_no_kill (logrow : List Char) (now : Nat)
    (conds : List (String × ExperimentWarning))
    (hall : ∀ kc ∈ conds, ∃ a, kc.2.get_action logrow now = some a ∧ a ≠ "kill") :
    ∀ init, getActionGo logrow now conds init =
      some ((nonKillFirings logrow now conds).getLastD init) := by
  induction conds with
  | nil => intro init; rfl
  | cons kc rest ih =>
    intro init
    obtain ⟨a, ha, hank⟩ := hall kc (List.mem_cons_self kc rest)
    have hrest : ∀ kc ∈ rest, ∃ a, kc.2.get_action logrow now = some a ∧ a ≠ "kill" :=
      fun kc2 h2 => hall kc2 (List.mem_cons_of_mem kc h2)
    have hbk : (a == "kill") = false := beq_eq_false_iff_ne.mpr hank
    by_cases hna : a = "no action"
    · simp only [getActionGo, ha, hbk, hna, nonKillFirings, List.filterMap_cons,
        ne_eq, not_true_eq_false, false_and, if_false]
      simpa [nonKillFirings] using ih hrest init
    · have hbn : (a == "no action") = false := beq_eq_false_iff_ne.mpr hna
      simp only [getActionGo, ha, hbk, hbn, Bool.false_eq_true, if_false,
        nonKillFirings, List.filterMap_cons, ne_eq, hna, not_false_eq_true, hank, and_self,
        if_true, List.getLastD_cons]
      simpa [nonKillFirings] using ih hrest (a, kc.1)

theorem getActionGo_kill (logrow : List Char) (now : Nat) (k : String)
    (c : ExperimentWarning) (post : List (String × ExperimentWarning))
    (hkill : c.get_action logrow now = some "kill")
    (pre : List (String × ExperimentWarning))
    (hpre : ∀ kc ∈ pre, ∃ a, kc.2.get_action logrow now = some a ∧ a ≠ "kill") :
    ∀ init, getActionGo logrow now (pre ++ (k, c) :: post) init = some ("kill", k) := by
  induction pre with
  | nil => intro init; simp only [List.nil_append, getActionGo, hkill]; rfl
  | cons kc rest ih =>
    intro init
    obtain ⟨a, ha, hank⟩ := hpre kc (List.mem_cons_self kc rest)
    have hrest : ∀ kc ∈ rest, ∃ a, kc.2.get_action logrow now = some a ∧ a ≠ "kill" :=
      fun kc2 h2 => hpre kc2 (List.mem_cons_of_mem kc h2)
    have hbk : (a == "kill") = false := beq_eq_false_iff_ne.mpr hank
    by_cases hna : a = "no action"
    · simp only [List.cons_append, getActionGo, ha, hbk, Bool.false_eq_true, if_false, hna,
        beq_self_eq_true, if_true]
      exact ih hrest init
    · have hbn : (a == "no action") = false := beq_eq_false_iff_ne.mpr hna
      simp only [List.cons_append, getActionGo, ha, hbk, hbn, Bool.false_eq_true, if_false]
      exact ih hrest (a, kc.1)

/-! ### C1 / C5: the action aggregator -/

def c1w1 : ExperimentWarning :=
  ExperimentWarning.make "c1" (String.toList "loss") 5 "gt" (String.toList "always") "warn1" 0

def c1w2 : ExperimentWarning :=
  ExperimentWarning.make "c2" (String.toList "loss") 5 "gt" (String.toList "always") "warn2" 0

def c1exp : Experiment :=
  Experiment.init "e1" "python" "main.py" "/data/exp1" Option.none "" Option.none Option.none
    Option.none Option.none Option.none Option.none Option.none
    (some [("c1", c1w1), ("c2", c1w2)]) Option.none 0

/-- C1, counterexample: with two conditions that both fire a non-kill action on
the log line `loss 10` — `c1` (first in iteration order) firing `warn1` and
`c2` firing `warn2` — `Experiment.get_action` answers with the SECOND
condition, because the loop overwrites `init_action` on every later non-kill
firing.  The claim's "first non-kill firing wins" is therefore false. -/
theorem get_action_first_firing_overridden :
    c1w1.get_action (String.toList "loss 10") 0 = some "warn1" ∧
    c1w2.get_action (String.toList "loss 10") 0 = some "warn2" ∧
    c1exp.get_action (String.toList "loss 10") 0 = some ("warn2", "c2") ∧
    c1exp.get_action (String.toList "loss 10") 0 ≠ some ("warn1", "c1") := by
  refine ⟨by decide, by decide, by decide, by decide⟩

/-- C1, amended: when no attached condition raises or fires `kill`,
`Experiment.get_action` returns the LAST condition (in iteration order) that
fires a non-kill action, together with that condition's name — every later
non-kill firing overrides the previously remembered candidate — and the
default `("no action", "")` when no condition fires. -/
theorem get_action_last_non_kill_firing_wins (e : Experiment) (logrow : List Char) (now : Nat)
    (conds : List (String × ExperimentWarning))
    (hc : e.conditions = some conds)
    (hall : ∀ kc ∈ conds, ∃ a, kc.2.get_action logrow now = some a ∧ a ≠ "kill") :
    e.get_action logrow now =
      some ((nonKillFirings logrow now conds).getLastD ("no action", "")) := by
  unfold Experiment.get_action
  rw [hc]
  exact getActionGo_no_kill logrow now conds hall ("no action", "")

/-- C1, witness for the amended theorem: on the record of the counterexample
the last non-kill firing is `("warn2", "c2")`, and `get_action` returns it. -/
theorem get_action_last_non_kill_firing_wins_witness :
    c1exp.get_action (String.toList "loss 10") 0 = some ("warn2", "c2") := by
  have h := get_action_last_non_kill_firing_wins c1exp (String.toList "loss 10") 0
    [("c1", c1w1), ("c2", c1w2)] (by decide)
    (by
      intro kc hkc
      simp only [List.mem_cons, List.not_mem_nil, or_false] at hkc
      rcases hkc with h1 | h1
      · exact ⟨"warn1", by rw [h1]; decide, by decide⟩
      · exact ⟨"warn2", by rw [h1]; decide, by decide⟩)
  rw [h]
  decide

/-- C5: a condition firing the literal `kill` pre-empts everything: if every
condition before it in iteration order fires some non-kill action (or none at
all), the aggregator returns `("kill", that_condition_name)` — in particular a
non-kill firing earlier in the pass does not win over the kill. -/
theorem get_action_kill_preempts (e : Experiment) (logrow : List Char) (now : Nat)
    (pre post : List (String × ExperimentWarning)) (k : String) (c : ExperimentWarning)
    (hc : e.conditions = some (pre ++ (k, c) :: post))
    (hpre : ∀ kc ∈ pre, ∃ a, kc.2.get_action logrow now = some a ∧ a ≠ "kill")
    (hkill : c.get_action logrow now = some "kill") :
    e.get_action logrow now = some ("kill", k) := by
  unfold Experiment.get_action
  rw [hc]
  exact getActionGo_kill logrow now k c post hkill pre hpre ("no action", "")

def c5wk : ExperimentWarning :=
  ExperimentWarning.make "ck" (String.toList "loss") 5 "gt" (String.toList "always") "kill" 0

def c5exp : Experiment :=
  Experiment.init "e5" "python" "main.py" "/data/exp5" Option.none "" Option.none Option.none
    Option.none Option.none Option.none Option.none Option.none
    (some [("c1", c1w1), ("ck", c5wk)]) Option.none 0

/-- C5, witness: `c1` (evaluated first) fires `warn1`, `ck` fires `kill`; the
aggregator returns `("kill", "ck")`. -/
theorem get_action_kill_preempts_witness :
    c5exp.get_action (String.toList "loss 10") 0 = some ("kill", "ck") :=
  get_action_kill_preempts c5exp (String.toList "loss 10") 0
    [("c1", c1w1)] [] "ck" c5wk (by decide)
    (by
      intro kc hkc
      simp only [List.mem_cons, List.not_mem_nil, or_false] at hkc
      exact ⟨"warn1", by rw [hkc]; decide, by decide⟩)
    (by decide)

/-! ### C6 / C7: the condition evaluator -/

theorem comparatorFires_gt (v kv : Rat) : comparatorFires "gt" v kv = decide (kv < v) := by
  unfold comparatorFires
  rw [(by decide : (("gt" : String) == "gt") = true),
      (by decide : (("gt" : String) == "lt") = false),
      (by decide : (("gt" : String) == "eq") = false),
      (by decide : (("gt" : String) == "geq") = false),
      (by decide : (("gt" : String) == "leq") = false)]
  simp

theorem comparatorFires_lt (v kv : Rat) : comparatorFires "lt" v kv = decide (v < kv) := by
  unfold comparatorFires
  rw [(by decide : (("lt" : String) == "gt") = false),
      (by decide : (("lt" : String) == "lt") = true),
      (by decide : (("lt" : String) == "eq") = false),
      (by decide : (("lt" : String) == "geq") = false),
      (by decide : (("lt" : String) == "leq") = false)]
  simp

theorem comparatorFires_eq (v kv : Rat) : comparatorFires "eq" v kv = decide (v = kv) := by
  unfold comparatorFires
  rw [(by decide : (("eq" : String) == "gt") = false),
      (by decide : (("eq" : String) == "lt") = false),
      (by decide : (("eq" : String) == "eq") = true),
      (by decide : (("eq" : String) == "geq") = false),
      (by decide : (("eq" : String) == "leq") = false)]
  simp

theorem comparatorFires_geq (v kv : Rat) : comparatorFires "geq" v kv = decide (kv ≤ v) := by
  unfold comparatorFires
  rw [(by decide : (("geq" : String) == "gt") = false),
      (by decide : (("geq" : String) == "lt") = false),
      (by decide : (("geq" : String) == "eq") = false),
      (by decide : (("geq" : String) == "geq") = true),
      (by decide : (("geq" : String) == "leq") = false)]
  simp

theorem comparatorFires_leq (v kv : Rat) : comparatorFires "leq" v kv = decide (v ≤ kv) := by
  unfold comparatorFires
  rw [(by decide : (("leq" : String) == "gt") = false),
      (by decide : (("leq" : String) == "lt") = false),
      (by decide : (("leq" : String) == "eq") = false),
      (by decide : (("leq" : String) == "geq") = false),
      (by decide : (("leq" : String) == "leq") = true)]
  simp

/-- Without a time-gate, evaluation is the prefix-test / parse / compare body. -/
theorem get_action_no_gate (c : ExperimentWarning) (logrow : List Char) (now : Nat)
    (hgate : containsSub c.condWhen (String.toList "time") = false) :
    c.get_action logrow now = some (checkBody c (trimChars logrow)) := by
  unfold ExperimentWarning.get_action
  rw [hgate]
  simp

/-- Reduction of `checkBody` on a line that starts with `varname`. -/
theorem checkBody_prefix (c : ExperimentWarning) (rest : List Char)
    (hvar : trimChars c.varname = c.varname) :
    checkBody c (c.varname ++ rest) =
      (match pyFloat (trimChars rest) with
       | Option.none => "no action"
       | some varvalue =>
         if comparatorFires c.comparator varvalue c.killvalue then c.action
         else "no action") := by
  unfold checkBody
  dsimp only
  rw [List.take_left, List.drop_left, hvar, beq_self_eq_true]
  simp

/-- C6: for a condition without a time-gate, on a log line that (after
stripping) starts with `varname` followed by text parsing to the float `v`,
the evaluation returns the condition's action exactly when its comparator
relates `v` to the threshold (`gt`: `v > T`, `lt`: `v < T`, `eq`: `v = T`,
`geq`: `v ≥ T`, `leq`: `v ≤ T`) and `no action` otherwise; a failed numeric
parse or a line not starting with `varname` also yields `no action`.
(`hvar` is the constructor invariant that `varname` carries no outer
whitespace.) -/
theorem warning_comparator_semantics (c : ExperimentWarning) (logrow rest : List Char)
    (v : Rat) (now : Nat)
    (hgate : containsSub c.condWhen (String.toList "time") = false)
    (hvar : trimChars c.varname = c.varname) :
    (trimChars logrow = c.varname ++ rest → pyFloat (trimChars rest) = some v →
      ((c.comparator = "gt" →
          c.get_action logrow now =
            some (if c.killvalue < v then c.action else "no action")) ∧
       (c.comparator = "lt" →
          c.get_action logrow now =
            some (if v < c.killvalue then c.action else "no action")) ∧
       (c.comparator = "eq" →
          c.get_action logrow now =
            some (if v = c.killvalue then c.action else "no action")) ∧
       (c.comparator = "geq" →
          c.get_action logrow now =
            some (if c.killvalue ≤ v then c.action else "no action")) ∧
       (c.comparator = "leq" →
          c.get_action logrow now =
            some (if v ≤ c.killvalue then c.action else "no action")))) ∧
    (trimChars logrow = c.varname ++ rest → pyFloat (trimChars rest) = Option.none →
      c.get_action logrow now = some "no action") ∧
    ((∀ r, trimChars logrow ≠ c.varname ++ r) → c.get_action logrow now = some "no action") := by
  have hga : c.get_action logrow now = some (checkBody c (trimChars logrow)) :=
    get_action_no_gate c logrow now hgate
  refine ⟨fun hline hpf => ?_, fun hline hpf => ?_, fun hns => ?_⟩
  · have hcb : checkBody c (trimChars logrow) =
        (if comparatorFires c.comparator v c.killvalue then c.action else "no action") := by
      rw [hline, checkBody_prefix c rest hvar, hpf]
    refine ⟨fun h => ?_, fun h => ?_, fun h => ?_, fun h => ?_, fun h => ?_⟩
    · rw [hga, hcb, h, comparatorFires_gt]
      simp only [decide_eq_true_eq]
    · rw [hga, hcb, h, comparatorFires_lt]
      simp only [decide_eq_true_eq]
    · rw [hga, hcb, h, comparatorFires_eq]
      simp only [decide_eq_true_eq]
    · rw [hga, hcb, h, comparatorFires_geq]
      simp only [decide_eq_true_eq]
    · rw [hga, hcb, h, comparatorFires_leq]
      simp only [decide_eq_true_eq]
  · rw [hga, hline, checkBody_prefix c rest hvar, hpf]
  · rw [hga]
    unfold checkBody
    dsimp only
    cases hbe : (trimChars ((trimChars logrow).take c.varname.length) == c.varname) with
    | true =>
      exfalso
      exact hns _ (starts_with_of_prefix_test c.varname (trimChars logrow) (eq_of_beq hbe))
    | false => simp [hbe]

def c6w : ExperimentWarning :=
  ExperimentWarning.make "cw" (String.toList "loss") 5 "gt" (String.toList "always") "warn" 0

/-- C6, witness: with threshold `5` and comparator `gt`, the line `loss 10`
fires `warn`, `loss 3` does not, `loss abc` fails to parse, and
`accuracy 10` does not start with the varname. -/
theorem warning_comparator_semantics_witness :
    c6w.get_action (String.toList "loss 10") 0 = some "warn" ∧
    c6w.get_action (String.toList "loss 3") 0 = some "no action" ∧
    c6w.get_action (String.toList "loss abc") 0 = some "no action" ∧
    c6w.get_action (String.toList "accuracy 10") 0 = some "no action" := by
  refine ⟨?_, ?_, ?_, ?_⟩
  · exact (((warning_comparator_semantics c6w (String.toList "loss 10")
      (String.toList " 10") 10 0 (by decide) (by decide)).1
      (by decide) (by decide)).1 (by decide)).trans (by decide)
  · exact (((warning_comparator_semantics c6w (String.toList "loss 3")
      (String.toList " 3") 3 0 (by decide) (by decide)).1
      (by decide) (by decide)).1 (by decide)).trans (by decide)
  · exact ((warning_comparator_semantics c6w (String.toList "loss abc")
      (String.toList " abc") 0 0 (by decide) (by decide)).2.1
      (by decide) (by decide))
  · refine ((warning_comparator_semantics c6w (String.toList "accuracy 10")
      (String.toList "") 0 0 (by decide) (by decide)).2.2 ?_)
    intro r h
    have hv : c6w.varname = String.toList "loss" := by decide
    rw [hv] at h
    have h4 : (trimChars (String.toList "accuracy 10")).take (String.toList "loss").length
        = String.toList "loss" := by
      rw [h]
      exact List.take_left _ _
    exact absurd h4 (by decide)

/-- C7: a time-gated condition (`when` containing `time`, whose tail parses to
the whole number of minutes `g`) returns `no action` on EVERY log line while
fewer than `g` wall-clock minutes have elapsed since its `start_time`; once at
least `g` minutes have elapsed the evaluation proceeds to the normal
prefix/parse/compare body, and in particular fires the condition's action on a
qualifying line. -/
theorem warning_time_gate (c : ExperimentWarning) (g : Nat) (logrow : List Char) (now : Nat)
    (hts : containsSub c.condWhen (String.toList "time") = true)
    (hpf : pyFloat (trimChars (c.condWhen.drop 4)) = some (g : Rat)) :
    (now - c.start_time < g * 60 → c.get_action logrow now = some "no action") ∧
    (g * 60 ≤ now - c.start_time →
      c.get_action logrow now = some (checkBody c (trimChars logrow))) ∧
    (g * 60 ≤ now - c.start_time →
      ∀ rest v, trimChars logrow = c.varname ++ rest → trimChars c.varname = c.varname →
        pyFloat (trimChars rest) = some v →
        comparatorFires c.comparator v c.killvalue = true →
        c.get_action logrow now = some c.action) := by
  have key : c.get_action logrow now =
      (if (((now - c.start_time) / 60 : Nat) : Rat) < (g : Rat) then some "no action"
       else some (checkBody c (trimChars logrow))) := by
    unfold ExperimentWarning.get_action
    rw [hts]
    simp only [if_true]
    rw [hpf]
  have hgate2 : ∀ h2 : g * 60 ≤ now - c.start_time,
      c.get_action logrow now = some (checkBody c (trimChars logrow)) := by
    intro h2
    have hdiv : g ≤ (now - c.start_time) / 60 :=
      (Nat.le_div_iff_mul_le (by norm_num)).mpr h2
    have hcast : ¬ ((((now - c.start_time) / 60 : Nat) : Rat) < (g : Rat)) :=
      not_lt.mpr (Nat.cast_le.mpr hdiv)
    rw [key, if_neg hcast]
  refine ⟨fun h1 => ?_, hgate2, fun h2 rest v hline hvar hpfv hfires => ?_⟩
  · have hdiv : (now - c.start_time) / 60 < g :=
      (Nat.div_lt_iff_lt_mul (by norm_num)).mpr h1
    have hcast : (((now - c.start_time) / 60 : Nat) : Rat) < (g : Rat) :=
      Nat.cast_lt.mpr hdiv
    rw [key, if_pos hcast]
  · rw [hgate2 h2, hline, checkBody_prefix c rest hvar, hpfv]
    simp [hfires]

def c7w : ExperimentWarning :=
  ExperimentWarning.make "ct" (String.toList "loss") 5 "gt" (String.toList "time 5") "kill" 0

/-- C7, witness: with `when = time 5` and `start_time = 0`, the qualifying line
`loss 10` is inert at 299 seconds (4 whole minutes) and fires at 300 seconds
(5 minutes). -/
theorem warning_time_gate_witness :
    c7w.get_action (String.toList "loss 10") 299 = some "no action" ∧
    c7w.get_action (String.toList "loss 10") 300 = some "kill" := by
  constructor
  · exact (warning_time_gate c7w 5 (String.toList "loss 10") 299
      (by decide) (by decide)).1 (by decide)
  · exact ((warning_time_gate c7w 5 (String.toList "loss 10") 300
      (by decide) (by decide)).2.2 (by decide) (String.toList " 10") 10
      (by decide) (by decide) (by decide) (by decide)).trans (by decide)

/-! ### C8: the lifecycle state machine -/

/-- C8: `update_state` is a no-op when the new state equals the current one
(nothing appended, no timer touched); otherwise it appends `(new_state, now)`
to `states_info`, and when the new state is `running` and the record has a
non-empty conditions dict it resets every condition's `start_time` to `now`;
hence two consecutive calls with the same state append exactly one entry. -/
theorem update_state_transitions (e : Experiment) (s : String) (now now2 : Nat) :
    (s = e.state → e.update_state s now = e) ∧
    (s ≠ e.state → (e.update_state s now).states_info = e.states_info ++ [(s, now)]) ∧
    (s ≠ e.state → ∀ cs, s = "running" → e.conditions = some cs → cs ≠ [] →
      (e.update_state s now).conditions =
        some (cs.map (fun kc => (kc.1, { kc.2 with start_time := now })))) ∧
    (s ≠ e.state →
      ((e.update_state s now).update_state s now2).states_info =
        e.states_info ++ [(s, now)]) := by
  have happ : ∀ (f : Experiment) (n : Nat), s ≠ f.state →
      (f.update_state s n).states_info = f.states_info ++ [(s, n)] := by
    intro f n h
    have hbe : (s == f.state) = false := beq_eq_false_iff_ne.mpr h
    unfold Experiment.update_state
    rw [if_neg (by simp [hbe])]
    dsimp only
    split <;> rfl
  have hnoop : ∀ (f : Experiment) (n : Nat), s = f.state → f.update_state s n = f := by
    intro f n h
    unfold Experiment.update_state
    rw [if_pos (beq_iff_eq.mpr h)]
  refine ⟨hnoop e now, happ e now, fun h cs hrun hcs hne => ?_, fun h => ?_⟩
  · have hbe : (s == e.state) = false := beq_eq_false_iff_ne.mpr h
    have hc2 : (s == "running" &&
        (match e.conditions with
         | some cs => !cs.isEmpty
         | Option.none => false)) = true := by
      rw [hrun, hcs]
      rcases cs with _ | ⟨a, l⟩
      · exact absurd rfl hne
      · simp
    unfold Experiment.update_state
    rw [if_neg (by simp [hbe])]
    dsimp only
    rw [if_pos hc2]
    simp [hcs]
  · have hst : (e.update_state s now).state = s := by
      unfold Experiment.state
      rw [happ e now h]
      simp
    rw [hnoop (e.update_state s now) now2 hst.symm, happ e now h]

def c8cond : ExperimentWarning :=
  ExperimentWarning.make "c1" (String.toList "loss") 5 "gt" (String.toList "time 5") "kill" 0

def c8exp : Experiment :=
  Experiment.init "e8" "python" "main.py" "/data/exp8" Option.none "" Option.none Option.none
    Option.none Option.none Option.none Option.none Option.none
    (some [("c1", c8cond)]) Option.none 3

/-- C8, witness: on a freshly defined record, re-entering `defined` is a
no-op; moving to `running` at 7 appends one entry and re-arms the condition
timer at 7; a second `running` call appends nothing. -/
theorem update_state_transitions_witness :
    c8exp.update_state "defined" 5 = c8exp ∧
    (c8exp.update_state "running" 7).states_info = [("defined", 3), ("running", 7)] ∧
    (c8exp.update_state "running" 7).conditions =
      some [("c1", { c8cond with start_time := 7 })] ∧
    ((c8exp.update_state "running" 7).update_state "running" 9).states_info =
      [("defined", 3), ("running", 7)] := by
  refine ⟨(update_state_transitions c8exp "defined" 5 5).1 (by decide),
    ((update_state_transitions c8exp "running" 7 7).2.1 (by decide)).trans (by decide),
    ((update_state_transitions c8exp "running" 7 7).2.2.1 (by decide) [("c1", c8cond)]
      rfl (by decide) (by decide)).trans (by decide),
    ((update_state_transitions c8exp "running" 7 9).2.2.2 (by decide)).trans (by decide)⟩

/-! ### C4: duplication -/

/-- C4, amended: `duplicate_experiment` re-runs the constructor on the
original's mandatory and optional field values, so all declarative fields are
equal, the identity is the fresh `new_id`, the `path` is the ORIGINAL's path
(shared, not fresh), the lifecycle history is reset to the single fresh
`defined` entry, and warnings, cluster id and run results are empty.
(`hcol` holds for every constructed record: `collection` is never empty.) -/
theorem duplicate_experiment_fields (e : Experiment) (new_id : String) (now : Nat)
    (hcol : e.collection ≠ []) :
    (duplicate_experiment e new_id now).experiment_id = new_id ∧
    Experiment.run_command_prefix (duplicate_experiment e new_id now) =
      Experiment.run_command_prefix e ∧
    (duplicate_experiment e new_id now).main_code_file = e.main_code_file ∧
    (duplicate_experiment e new_id now).required_files = e.required_files ∧
    (duplicate_experiment e new_id now).outputs = e.outputs ∧
    (duplicate_experiment e new_id now).output_file_processor = e.output_file_processor ∧
    (duplicate_experiment e new_id now).output_line_processor = e.output_line_processor ∧
    (duplicate_experiment e new_id now).plot = e.plot ∧
    (duplicate_experiment e new_id now).parameters = e.parameters ∧
    (duplicate_experiment e new_id now).parameters_format = e.parameters_format ∧
    (duplicate_experiment e new_id now).collection = e.collection ∧
    (duplicate_experiment e new_id now).conditions = e.conditions ∧
    (duplicate_experiment e new_id now).sbatch_args = e.sbatch_args ∧
    (duplicate_experiment e new_id now).custom_msg = e.custom_msg ∧
    (duplicate_experiment e new_id now).path = e.path ∧
    (duplicate_experiment e new_id now).states_info = [("defined", now)] ∧
    (duplicate_experiment e new_id now).warnings = [] ∧
    (duplicate_experiment e new_id now).cluster_id = Option.none ∧
    (duplicate_experiment e new_id now).run_results = [] := by
  unfold duplicate_experiment Experiment.init
  dsimp only
  refine ⟨rfl, rfl, rfl, ?_, rfl, rfl, rfl, rfl, rfl, rfl, ?_, rfl, rfl, ?_, rfl, rfl,
    rfl, rfl, rfl⟩
  · rcases hrf : e.required_files with _ | ⟨a, l⟩ <;> simp [hrf]
  · have h2 : e.collection.isEmpty = false := by
      rcases h : e.collection with _ | ⟨a, l⟩
      · exact absurd h hcol
      · rfl
    simp [h2]
  · by_cases h : e.custom_msg.isEmpty
    · rw [if_pos h]
      exact ((String.isEmpty_iff _).mp h).symm
    · rw [if_neg h]

def c4base : Experiment :=
  Experiment.init "orig" "python" "main.py" "/data/exp1" (some [("lr", "0.1")]) "--lr 0.1"
    (some ["a.txt"]) (some ["out.log"]) Option.none Option.none Option.none (some "hi")
    Option.none (some [("c1", c1w1)]) Option.none 3

def c4orig : Experiment := c4base.update_state "running" 7

/-- C4, counterexample: duplicating a record that has lived (its history holds
`defined` and `running` entries) yields a record whose `path` EQUALS the
original's — the source explicitly copies `experiment._fields[path]` — and
whose `states_info` is not empty but the fresh singleton `(defined, 9)`. -/
theorem duplicate_experiment_path_shared :
    (duplicate_experiment c4orig "copy" 9).path = c4orig.path ∧
    (duplicate_experiment c4orig "copy" 9).states_info = [("defined", 9)] ∧
    (duplicate_experiment c4orig "copy" 9).states_info ≠ [] ∧
    c4orig.states_info = [("defined", 3), ("running", 7)] := by
  exact ⟨by decide, by decide, by decide, by decide⟩

/-- C4, witness for the amended theorem at the counterexample's record. -/
theorem duplicate_experiment_fields_witness :
    (duplicate_experiment c4orig "copy" 9).experiment_id = "copy" ∧
    Experiment.run_command_prefix (duplicate_experiment c4orig "copy" 9) =
      Experiment.run_command_prefix c4orig ∧
    (duplicate_experiment c4orig "copy" 9).conditions = c4orig.conditions ∧
    (duplicate_experiment c4orig "copy" 9).warnings = [] := by
  have h := duplicate_experiment_fields c4orig "copy" 9 (by decide)
  exact ⟨h.1, h.2.1, h.2.2.2.2.2.2.2.2.2.2.2.1, h.2.2.2.2.2.2.2.2.2.2.2.2.2.2.2.2.1⟩

/-! ### C2 / C3 / C10: the output-extraction pipeline -/

def c2fileReader : String → List String → Option PyObj :=
  fun _ _ => some (.dict [("file", .num 99)])

def c2lineReader : String → List String → Option PyObj :=
  fun line _ => some (.dict [("line", .num (line.length : Rat))])

def c2env : Env :=
  { import_from_reader := fun m f =>
      if m == "mod" && f == "fread" then some c2fileReader
      else if m == "mod" && f == "lread" then some c2lineReader
      else Option.none
    import_from_plotter := fun _ _ => Option.none
    read_file := fun p => if p == "/u/results/e2/out.log" then some ["x\n", "yy z"] else Option.none
    user_data_dir := "/u" }

def c2exp : Experiment :=
  Experiment.init "e2" "python" "main.py" "/data/e2" Option.none "" Option.none Option.none
    (some [("out.log", "mod lread")]) (some [("out.log", "mod fread")])
    Option.none Option.none Option.none Option.none Option.none 0

/-- C2: with BOTH a whole-file processor and a per-line processor registered
for `out.log`, `get_output` does NOT return the whole-file processor's result
(here `{file: 99}`): the loop over processor types has no break, so the line
processor runs afterwards and its accumulation `{line: [2, 4]}` replaces
`data`.  This contradicts the source's own comment "Prefers processor that
read the whole file". -/
theorem get_output_file_processor_overridden :
    c2exp.get_output c2env "out.log" =
      .ok (.dict [("line", .list [.num 2, .num 4])]) ∧
    c2fileReader (String.join ["x\n", "yy z"]) [] = some (.dict [("file", .num 99)]) ∧
    c2exp.get_output c2env "out.log" ≠ .ok (.dict [("file", .num 99)]) := by
  have heq : c2exp.get_output c2env "out.log" =
      .ok (.dict [("line", .list [.num 2, .num 4])]) := rfl
  refine ⟨heq, rfl, fun h => ?_⟩
  have h2 := heq.symm.trans h
  injection h2 with h3
  injection h3 with h4
  injection h4 with h5 h6
  have h7 := congrArg Prod.fst h5
  exact absurd h7 (by decide)

def c3reader : String → List String → Option PyObj := fun _ _ => some (.list [])

def c3env : Env :=
  { import_from_reader := fun m f =>
      if m == "m3" && f == "badf" then some c3reader
      else if m == "m3" && f == "badl" then some c3reader
      else Option.none
    import_from_plotter := fun _ _ => Option.none
    read_file := fun p =>
      if p == "/u/results/e3/o.txt" then some ["x"]
      else if p == "/u/results/e3/l.txt" then some ["x"]
      else Option.none
    user_data_dir := "/u" }

def c3fexp : Experiment :=
  Experiment.init "e3" "python" "main.py" "/data/e3" Option.none "" Option.none Option.none
    Option.none (some [("o.txt", "m3 badf")])
    Option.none Option.none Option.none Option.none Option.none 0

def c3lexp : Experiment :=
  Experiment.init "e3" "python" "main.py" "/data/e3" Option.none "" Option.none Option.none
    (some [("l.txt", "m3 badl")]) Option.none
    Option.none Option.none Option.none Option.none Option.none 0

/-- C3: a whole-file processor returning a non-dict (`[]`) is indeed turned
into `OutputReadError`, but a per-line processor returning the same non-dict
is NOT: the source checks `isinstance(data, dict)` on the accumulator `data`
(freshly bound to `{}`, so always a dict) instead of `line_data`, and the
subsequent `line_data.iteritems()` escapes as an uncaught `AttributeError` —
never as `OutputReadError`. -/
theorem get_output_nondict_error_channels :
    c3fexp.get_output c3env "o.txt" =
      .error (.outputReadError "e3: output_file_processor for o.txt didn't return a dict") ∧
    c3lexp.get_output c3env "l.txt" = .error (.uncaught "AttributeError") ∧
    ∀ m, c3lexp.get_output c3env "l.txt" ≠ .error (.outputReadError m) := by
  have h2 : c3lexp.get_output c3env "l.txt" = .error (.uncaught "AttributeError") := rfl
  refine ⟨rfl, h2, fun m h => ?_⟩
  have h3 := h2.symm.trans h
  injection h3 with h4
  exact PyErr.noConfusion h4

/-- C10: when the file processor for `filename` resolves, runs successfully
and returns the EMPTY dict, the falsy `data` makes `get_output` raise the
"no output processor defined" `OutputReadError` instead of returning `{}`. -/
theorem get_output_empty_result_raises (e : Experiment) (env : Env)
    (filename spec module_name reader_name : String) (reader_args : List String)
    (reader : String → List String → Option PyObj) (dir : String) (lines : List String)
    (specs : List (String × String))
    (h1 : e.output_file_processor = some specs)
    (h2 : specs.isEmpty = false)
    (h3 : alistFind specs filename = some spec)
    (h4 : shlexSplit spec = module_name :: reader_name :: reader_args)
    (h5 : env.import_from_reader module_name reader_name = some reader)
    (h6 : e.get_results_dir env.user_data_dir = some dir)
    (h7 : env.read_file (pathJoin dir filename) = some lines)
    (h8 : reader (String.join lines) reader_args = some (.dict []))
    (h9 : e.output_line_processor = Option.none) :
    e.get_output env filename =
      .error (.outputReadError
        (e.experiment_id ++ ": no output processor defined for " ++ filename)) := by
  have hb1 : (("output_line_processor" : String) == "output_file_processor") = false := by
    decide
  simp only [Experiment.get_output, processLoop, beq_self_eq_true, if_true, h1, h2, h3, h4, h5,
    h6, h7, h8, h9, hb1, Bool.false_eq_true, if_false]
  rfl

def c10reader : String → List String → Option PyObj := fun _ _ => some (.dict [])

def c10env : Env :=
  { import_from_reader := fun m f =>
      if m == "m0" && f == "emptyread" then some c10reader else Option.none
    import_from_plotter := fun _ _ => Option.none
    read_file := fun p => if p == "/u/results/e10/out.txt" then some ["x"] else Option.none
    user_data_dir := "/u" }

def c10exp : Experiment :=
  Experiment.init "e10" "python" "main.py" "/data/e10" Option.none "" Option.none Option.none
    Option.none (some [("out.txt", "m0 emptyread")])
    Option.none Option.none Option.none Option.none Option.none 0

/-- C10, witness: a registered file processor that returns `{}` yields the
"no output processor defined" error. -/
theorem get_output_empty_result_raises_witness :
    c10exp.get_output c10env "out.txt" =
      .error (.outputReadError "e10: no output processor defined for out.txt") :=
  get_output_empty_result_raises c10exp c10env "out.txt" "m0 emptyread" "m0" "emptyread" []
    c10reader "/u/results/e10" ["x"] [("out.txt", "m0 emptyread")]
    rfl rfl rfl rfl rfl rfl rfl rfl rfl

/-! ### C9: the plotting pipeline -/

/-- C9: once the plot spec resolves (name found, three-plus tokens, plotter
imported), a failure of the inner `get_output` call propagates out of
`plotter` unchanged — the `OutputReadError` is not caught and not converted
into a `PlotError`, keeping extraction failure and plotting failure distinct
error channels. -/
theorem plotter_propagates_output_read_error (e : Experiment) (env : Env)
    (plot_name spec module_name plotter_name output_filename m : String)
    (plot_args : List String) (plots : List (String × String))
    (plotfn : String → PyObj → List (String ⊕ (String × PyObj)) → Option PyObj)
    (feedback : PyObj)
    (h1 : e.plot = some plots)
    (h2 : alistFind plots plot_name = some spec)
    (h3 : shlexSplit spec = module_name :: plotter_name :: output_filename :: plot_args)
    (h4 : env.import_from_plotter module_name plotter_name = some plotfn)
    (h5 : e.get_output env output_filename = .error (.outputReadError m)) :
    e.plotter env plot_name feedback = .error (.outputReadError m) := by
  simp only [Experiment.plotter, h1, h2, h3, h4, h5]

def c9plotfn : String → PyObj → List (String ⊕ (String × PyObj)) → Option PyObj :=
  fun _ _ _ => some .none

def c9env : Env :=
  { import_from_reader := fun _ _ => Option.none
    import_from_plotter := fun m f =>
      if m == "pm" && f == "pf" then some c9plotfn else Option.none
    read_file := fun _ => Option.none
    user_data_dir := "/u" }

def c9exp : Experiment :=
  Experiment.init "e9" "python" "main.py" "/data/e9" Option.none "" Option.none Option.none
    Option.none Option.none Option.none Option.none (some [("p1", "pm pf out.txt")])
    Option.none Option.none 0

/-- C9, witness: with no output processor registered, the inner `get_output`
fails with `OutputReadError` and `plotter` returns exactly that error. -/
theorem plotter_propagates_output_read_error_witness :
    c9exp.plotter c9env "p1" .none =
      .error (.outputReadError "e9: no output processor defined for out.txt") :=
  plotter_propagates_output_read_error c9exp c9env "p1" "pm pf out.txt" "pm" "pf" "out.txt"
    "e9: no output processor defined for out.txt" [] [("p1", "pm pf out.txt")] c9plotfn .none
    rfl rfl rfl rfl rfl
